import Mathlib

/-!
Shallow embedding of the management command
`openedx/core/djangoapps/credentials/management/commands/notify_credentials.py`.

The command collects CLI options, optionally replaces them with options
re-parsed from a persisted `NotifyCredentialsConfig` record, applies the
`--auto` date window, resolves course-key strings, validates that a filter is
present, and enqueues exactly one task (`handle_notify_credentials.delay`).

External collaborators (dateutil's parser, shlex, argparse, the course-key
parser, the wall clock) are modelled as explicit function parameters bundled
in `Env`; exceptional control flow (`CommandError`, `sys.exit`) is modelled by
the `Outcome` / `HandleResult` sum types.
-/

namespace NotifyCredentials

/-- Timezone information attached to a datetime value (`dt.tzinfo` in Python):
`utc` models `pytz.UTC`, `offset m` models any other fixed-offset timezone. -/
inductive Tz where
  | utc : Tz
  | offset : Int → Tz
  deriving DecidableEq

/-- Model of a Python `datetime.datetime`. The date part is abstracted to a
day counter; `hour`, `minute`, `second`, `microsecond` are the broken-down
time fields, and `tzinfo` is `none` for a naive datetime. -/
structure Datetime where
  day : Int
  hour : Nat
  minute : Nat
  second : Nat
  microsecond : Nat
  tzinfo : Option Tz
  deriving DecidableEq

/-- `dt.replace(minute=0, second=0, microsecond=0)` as used in `handle` for
the `--auto` end date. -/
def truncateToHour (dt : Datetime) : Datetime :=
  { dt with minute := 0, second := 0, microsecond := 0 }

/-- `dt - timedelta(hours=h)`: subtract whole hours, borrowing across the day
counter. Minute, second, microsecond and tzinfo are unchanged. -/
def subHours (dt : Datetime) (h : Int) : Datetime :=
  let total : Int := dt.day * 24 + (dt.hour : Int) - h
  { dt with day := total.ediv 24, hour := (total.emod 24).toNat }

/-- `parsetime` from notify_credentials.py.  `parse` models
`dateutil.parser.parse`, with `none` standing for the parse exception, which
`parsetime` propagates.  On success, a naive result is assigned UTC via
`dt.replace(tzinfo=UTC)`; an aware result is returned unchanged. -/
def parsetime (parse : String → Option Datetime) (timestr : String) :
    Option Datetime :=
  match parse timestr with
  | none => none
  | some dt =>
      if dt.tzinfo = none then some { dt with tzinfo := some Tz.utc }
      else some dt

/-- A course key as produced by `CourseKey.from_string`; abstracted to its
canonical string form. -/
structure CourseKey where
  raw : String
  deriving DecidableEq

/-- The options dictionary built by the command's argument parser (the fields
registered in `Command.add_arguments`).  `delay` is a rational standing for
the Python float (the command never computes with it). -/
structure Options where
  dry_run : Bool
  site : Option String
  courses : Option (List String)
  start_date : Option Datetime
  end_date : Option Datetime
  delay : Rat
  page_size : Int
  auto : Bool
  args_from_database : Bool
  verbose : Bool
  notify_programs : Bool
  user_ids : Option (List String)
  deriving DecidableEq

/-- The persisted `NotifyCredentialsConfig` record (`.current()`): an enabled
flag and a free-form arguments string. -/
structure NotifyCredentialsConfig where
  enabled : Bool
  arguments : String
  deriving DecidableEq

/-- External dependencies of one invocation: the current config record,
`shlex.split`, the command's own argument parser
(`self.create_parser(...).parse_args(...).__dict__`), `CourseKey.from_string`
(`none` = `InvalidKeyError`), and `datetime.now()`. -/
structure Env where
  config : NotifyCredentialsConfig
  shlexSplit : String → List String
  parseArgs : List String → Options
  courseKeyFromString : String → Option CourseKey
  now : Datetime

/-- Result of a fallible step: normal return, `raise CommandError(msg)`, or
`sys.exit(code)`. -/
inductive Outcome (α : Type) where
  | ok : α → Outcome α
  | commandError : String → Outcome α
  | sysExit : Nat → Outcome α
  deriving DecidableEq

/-- The `CommandError` message raised by `get_args_from_database`. -/
def configDisabledMsg : String :=
  "NotifyCredentialsConfig is disabled, but --args-from-database was requested."

/-- The `CommandError` message raised by `handle` when no filter is given. -/
def noFilterMsg : String :=
  "You must specify a filter (e.g. --courses= or --start-date or --user_ids)"

/-- `Command.get_args_from_database`: raise `CommandError` if the current
config record is disabled, otherwise shlex-split its arguments string and
re-parse it with the command's own parser, yielding an options dictionary. -/
def get_args_from_database (env : Env) : Outcome Options :=
  if env.config.enabled then
    .ok (env.parseArgs (env.shlexSplit env.config.arguments))
  else
    .commandError configDisabledMsg

/-- The loop body of `Command.get_course_keys`: append each parsed key to the
accumulator; on the first `InvalidKeyError`, `sys.exit(1)`. -/
def get_course_keys_loop (fromString : String → Option CourseKey) :
    List String → List CourseKey → Outcome (List CourseKey)
  | [], acc => .ok acc.reverse
  | course_id :: rest, acc =>
      match fromString course_id with
      | some k => get_course_keys_loop fromString rest (k :: acc)
      | none => .sysExit 1

/-- `Command.get_course_keys`.  `if not courses: courses = []` maps both
`None` and the empty list to `[]`; then each string is parsed in order. -/
def get_course_keys (fromString : String → Option CourseKey)
    (courses : Option (List String)) : Outcome (List CourseKey) :=
  get_course_keys_loop fromString (courses.getD []) []

/-- The `--auto` block of `Command.handle`: when `options['auto']` is set,
overwrite `end_date` with `datetime.now().replace(minute=0, second=0,
microsecond=0)` and `start_date` with `end_date - timedelta(hours=4)`. -/
def applyAuto (now : Datetime) (o : Options) : Options :=
  if o.auto then
    let ed := truncateToHour now
    { o with end_date := some ed, start_date := some (subHours ed 4) }
  else o

/-- Python truthiness of an optional list-valued option: `None` and the empty
list are falsy, a nonempty list is truthy. -/
def optListTruthy {α : Type} (l : Option (List α)) : Bool :=
  match l with
  | none => false
  | some xs => !xs.isEmpty

/-- The filter test of `Command.handle`:
`not (course_keys or options['start_date'] or options['end_date'] or
options['user_ids'])`.  A datetime is always truthy, so the date options are
falsy exactly when unset. -/
def noFilterCondition (course_keys : List CourseKey) (o : Options) : Bool :=
  course_keys.isEmpty && o.start_date.isNone && o.end_date.isNone &&
    !optListTruthy o.user_ids

/-- Result of `Command.handle`: one task enqueued via
`handle_notify_credentials.delay(options, course_keys)`, a `CommandError`
propagated to the caller, or a fatal `sys.exit`. -/
inductive HandleResult where
  | enqueued : Options → List CourseKey → HandleResult
  | commandError : String → HandleResult
  | sysExit : Nat → HandleResult
  deriving DecidableEq

/-- Option resolution at the top of `Command.handle`: when
`options['args_from_database']` is set, the options are replaced wholesale by
`get_args_from_database`; otherwise the CLI options are used as-is. -/
def resolveOptions (env : Env) (options : Options) : Outcome Options :=
  if options.args_from_database then get_args_from_database env
  else .ok options

/-- The body of `Command.handle` after option resolution: apply the `--auto`
date window, resolve course keys, raise `CommandError` when no filter is
present, otherwise enqueue the task with the resolved options and keys. -/
def handleResolved (env : Env) (o : Options) : HandleResult :=
  let o := applyAuto env.now o
  match get_course_keys env.courseKeyFromString o.courses with
  | .ok course_keys =>
      if noFilterCondition course_keys o then
        .commandError noFilterMsg
      else
        .enqueued o course_keys
  | .commandError m => .commandError m
  | .sysExit c => .sysExit c

/-- `Command.handle`: option resolution followed by the resolved body. -/
def handle (env : Env) (options : Options) : HandleResult :=
  match resolveOptions env options with
  | .ok o => handleResolved env o
  | .commandError m => .commandError m
  | .sysExit c => .sysExit c

/-- Sequential parsing of a list of course-id strings: `some ks` when every
string parses (preserving order), `none` as soon as one fails. -/
def parseAll (fromString : String → Option CourseKey) :
    List String → Option (List CourseKey)
  | [] => some []
  | c :: rest =>
      match fromString c, parseAll fromString rest with
      | some k, some ks => some (k :: ks)
      | _, _ => none

/-! Concrete sample values used to instantiate the theorems below. -/

/-- Options with every flag unset and every optional value absent (the
argparse defaults: `page_size` 100, `delay` 0). -/
def emptyOptions : Options :=
  { dry_run := false, site := none, courses := none, start_date := none,
    end_date := none, delay := 0, page_size := 100, auto := false,
    args_from_database := false, verbose := false, notify_programs := false,
    user_ids := none }

/-- A sample wall-clock instant (naive, mid-hour). -/
def sampleNow : Datetime :=
  { day := 19000, hour := 13, minute := 37, second := 21, microsecond := 5,
    tzinfo := none }

/-- A sample stand-in for `CourseKey.from_string`: the string `bad` raises
`InvalidKeyError`, every other string parses to a key. -/
def keyOfString (s : String) : Option CourseKey :=
  if s = "bad" then none else some { raw := s }

/-- A sample environment with an enabled config record. -/
def sampleEnv : Env :=
  { config := { enabled := true, arguments := "" },
    shlexSplit := fun s => s.splitOn " ",
    parseArgs := fun _ => emptyOptions,
    courseKeyFromString := keyOfString,
    now := sampleNow }

/-- A sample environment whose config record is disabled. -/
def disabledEnv : Env :=
  { sampleEnv with config := { enabled := false, arguments := "" } }

/-- Sample CLI options with `--auto` and an explicit `--start-date`. -/
def autoOptions : Options :=
  { emptyOptions with auto := true, start_date := some sampleNow }

/-- Sample CLI options with only an explicit `--start-date` filter. -/
def filterOptions : Options :=
  { emptyOptions with start_date := some sampleNow }

/-! Helper lemmas about the course-key loop. -/

/-- If some string in the list fails to parse, the loop exits the process
with status 1, whatever the accumulator. -/
theorem get_course_keys_loop_sysExit
    (f : String → Option CourseKey) :
    ∀ (cs : List String) (acc : List CourseKey),
      (∃ c ∈ cs, f c = none) →
      get_course_keys_loop f cs acc = .sysExit 1 := by
  intro cs
  induction cs with
  | nil => intro acc h; simp at h
  | cons c rest ih =>
      intro acc h
      obtain ⟨d, hmem, hnone⟩ := h
      rcases List.mem_cons.mp hmem with hd | hd
      · subst hd
        simp [get_course_keys_loop, hnone]
      · cases hfc : f c with
        | none => simp [get_course_keys_loop, hfc]
        | some k =>
            simp [get_course_keys_loop, hfc]
            exact ih (k :: acc) ⟨d, hd, hnone⟩

/-- If every string parses (with results `ks`), the loop returns the
accumulator (reversed) followed by `ks`. -/
theorem get_course_keys_loop_parseAll
    (f : String → Option CourseKey) :
    ∀ (cs : List String) (acc : List CourseKey) (ks : List CourseKey),
      parseAll f cs = some ks →
      get_course_keys_loop f cs acc = .ok (acc.reverse ++ ks) := by
  intro cs
  induction cs with
  | nil =>
      intro acc ks h
      simp [parseAll] at h
      simp [get_course_keys_loop, ← h]
  | cons c rest ih =>
      intro acc ks h
      cases hfc : f c with
      | none => simp [parseAll, hfc] at h
      | some k =>
          cases hrest : parseAll f rest with
          | none => simp [parseAll, hfc, hrest] at h
          | some ks2 =>
              simp [parseAll, hfc, hrest] at h
              subst h
              simp [get_course_keys_loop, hfc]
              rw [ih (k :: acc) ks2 hrest]
              simp

/-- When all strings parse, the result list has the input's length. -/
theorem parseAll_length (f : String → Option CourseKey) :
    ∀ (cs : List String) (ks : List CourseKey),
      parseAll f cs = some ks → ks.length = cs.length := by
  intro cs
  induction cs with
  | nil => intro ks h; simp [parseAll] at h; simp [← h]
  | cons c rest ih =>
      intro ks h
      cases hfc : f c with
      | none => simp [parseAll, hfc] at h
      | some k =>
          cases hrest : parseAll f rest with
          | none => simp [parseAll, hfc, hrest] at h
          | some ks2 =>
              simp [parseAll, hfc, hrest] at h
              subst h
              simp [ih ks2 hrest]

/-- The course-key loop never raises a `CommandError`: it returns normally or
exits the process. -/
theorem get_course_keys_loop_ne_commandError
    (f : String → Option CourseKey) :
    ∀ (cs : List String) (acc : List CourseKey) (m : String),
      get_course_keys_loop f cs acc ≠ .commandError m := by
  intro cs
  induction cs with
  | nil => intro acc m; simp [get_course_keys_loop]
  | cons c rest ih =>
      intro acc m
      cases hfc : f c with
      | none => simp [get_course_keys_loop, hfc]
      | some k => simp [get_course_keys_loop, hfc]; exact ih (k :: acc) m

/-- Sample CLI options requesting `--args-from-database`. -/
def dbOptions : Options :=
  { emptyOptions with args_from_database := true }

/-! The claim theorems. -/

/-- C1: whenever, after option resolution, no filter is present — the
resolved course-key list is empty, start-date, end-date and user_ids are all
unset — `handle` raises a `CommandError` to its caller. -/
theorem C1_no_filter_raises_command_error (env : Env) (opts o : Options)
    (hres : resolveOptions env opts = .ok o)
    (hkeys : get_course_keys env.courseKeyFromString
      (applyAuto env.now o).courses = .ok [])
    (hs : (applyAuto env.now o).start_date = none)
    (he : (applyAuto env.now o).end_date = none)
    (hu : (applyAuto env.now o).user_ids = none) :
    handle env opts = .commandError noFilterMsg := by
  simp [handle, handleResolved, hres, hkeys, noFilterCondition, hs, he, hu,
    optListTruthy]

/-- Witness for C1: the defaults (no options at all) raise the no-filter
`CommandError`. -/
theorem C1_no_filter_witness :
    resolveOptions sampleEnv emptyOptions = .ok emptyOptions ∧
    handle sampleEnv emptyOptions = .commandError noFilterMsg :=
  ⟨by decide,
   C1_no_filter_raises_command_error sampleEnv emptyOptions emptyOptions
     (by decide) (by decide) (by decide) (by decide) (by decide)⟩

/-- C2: if at least one string passed via `--courses` does not parse as a
`CourseKey`, `get_course_keys` terminates the process with exit status 1
rather than raising a catchable error or returning normally. -/
theorem C2_invalid_course_key_fatal_exit (f : String → Option CourseKey)
    (courses : List String) (h : ∃ c ∈ courses, f c = none) :
    get_course_keys f (some courses) = .sysExit 1 := by
  simp only [get_course_keys, Option.getD_some]
  exact get_course_keys_loop_sysExit f courses [] h

/-- Witness for C2: a one-element list with an unparseable course id exits
the process. -/
theorem C2_invalid_course_key_witness :
    (∃ c ∈ ["bad"], keyOfString c = none) ∧
    get_course_keys keyOfString (some ["bad"]) = .sysExit 1 :=
  ⟨by decide, C2_invalid_course_key_fatal_exit keyOfString ["bad"] (by decide)⟩

/-- C3: with `--args-from-database` set and the current
`NotifyCredentialsConfig` record disabled, `handle` raises a `CommandError`
before using the configuration. -/
theorem C3_disabled_config_raises (env : Env) (opts : Options)
    (hdb : opts.args_from_database = true)
    (hen : env.config.enabled = false) :
    handle env opts = .commandError configDisabledMsg := by
  simp [handle, resolveOptions, get_args_from_database, hdb, hen]

/-- Witness for C3: a disabled config record with `--args-from-database`
raises the config `CommandError`. -/
theorem C3_disabled_config_witness :
    dbOptions.args_from_database = true ∧
    disabledEnv.config.enabled = false ∧
    handle disabledEnv dbOptions = .commandError configDisabledMsg :=
  ⟨by decide, by decide,
   C3_disabled_config_raises disabledEnv dbOptions (by decide) (by decide)⟩

/-- C4: when validation passes — option resolution succeeds, every course id
parses, and the filter test succeeds — `handle` enqueues exactly one task
whose arguments are the resolved options dictionary and the resolved
course-key list. -/
theorem C4_valid_run_enqueues_one_task (env : Env) (opts o : Options)
    (keys : List CourseKey)
    (hres : resolveOptions env opts = .ok o)
    (hkeys : get_course_keys env.courseKeyFromString
      (applyAuto env.now o).courses = .ok keys)
    (hfilter : noFilterCondition keys (applyAuto env.now o) = false) :
    handle env opts = .enqueued (applyAuto env.now o) keys := by
  simp [handle, handleResolved, hres, hkeys, hfilter]

/-- Witness for C4: a start-date filter alone leads to one enqueued task
carrying the options and the (empty) course-key list. -/
theorem C4_valid_run_witness :
    resolveOptions sampleEnv filterOptions = .ok filterOptions ∧
    handle sampleEnv filterOptions = .enqueued filterOptions [] := by
  refine ⟨by decide, ?_⟩
  have h := C4_valid_run_enqueues_one_task sampleEnv filterOptions
    filterOptions [] (by decide) (by decide) (by decide)
  have e : applyAuto sampleEnv.now filterOptions = filterOptions := by decide
  rw [e] at h
  exact h

/-- C5: when validation fails — the database config is disabled although
requested, some course id fails to parse, or no filter is present — no task
is enqueued: `handle` never returns an `enqueued` result. -/
theorem C5_failed_validation_enqueues_nothing (env : Env)
    (opts o2 : Options) (keys : List CourseKey)
    (h : (opts.args_from_database = true ∧ env.config.enabled = false)
      ∨ (∃ o, resolveOptions env opts = .ok o ∧
          ∃ c ∈ (applyAuto env.now o).courses.getD [],
            env.courseKeyFromString c = none)
      ∨ (∃ o, resolveOptions env opts = .ok o ∧
          get_course_keys env.courseKeyFromString
            (applyAuto env.now o).courses = .ok [] ∧
          (applyAuto env.now o).start_date = none ∧
          (applyAuto env.now o).end_date = none ∧
          optListTruthy (applyAuto env.now o).user_ids = false)) :
    handle env opts ≠ .enqueued o2 keys := by
  rcases h with ⟨hdb, hen⟩ | ⟨o, hres, hbad⟩ | ⟨o, hres, hkeys, hs, he, hu⟩
  · simp [handle, resolveOptions, get_args_from_database, hdb, hen]
  · have hexit : get_course_keys env.courseKeyFromString
        (applyAuto env.now o).courses = .sysExit 1 :=
      get_course_keys_loop_sysExit env.courseKeyFromString _ [] hbad
    simp [handle, handleResolved, hres, hexit]
  · simp [handle, handleResolved, hres, hkeys, noFilterCondition, hs, he, hu]

/-- Witness for C5: with the config disabled and `--args-from-database`
requested, nothing is enqueued. -/
theorem C5_failed_validation_witness :
    (dbOptions.args_from_database = true ∧
      disabledEnv.config.enabled = false) ∧
    handle disabledEnv dbOptions ≠ .enqueued emptyOptions [] :=
  ⟨⟨by decide, by decide⟩,
   C5_failed_validation_enqueues_nothing disabledEnv dbOptions emptyOptions []
     (Or.inl ⟨by decide, by decide⟩)⟩

/-- The options dictionary that an `--auto` invocation with the sample clock
actually passes to the task: the dates are overwritten. -/
def resolvedAutoOptions : Options :=
  applyAuto sampleNow autoOptions

/-- C6 counterexample: an invocation with `--auto` and an explicit
`--start-date` enqueues an options dictionary whose `start_date` differs from
the one collected from the command line, so the option values are not
forwarded verbatim on every invocation. -/
theorem C6_not_verbatim_counterexample :
    autoOptions.start_date = some sampleNow ∧
    handle sampleEnv autoOptions = .enqueued resolvedAutoOptions [] ∧
    resolvedAutoOptions.start_date ≠ some sampleNow ∧
    resolvedAutoOptions ≠ autoOptions := by decide

/-- C6 (amended): for every invocation in which `--auto` and
`--args-from-database` are both unset, the options dictionary passed to the
external task is exactly the invocation's options, unmodified. -/
theorem C6_verbatim_without_auto_or_db (env : Env) (opts o2 : Options)
    (keys : List CourseKey)
    (hdb : opts.args_from_database = false)
    (hauto : opts.auto = false)
    (henq : handle env opts = .enqueued o2 keys) :
    o2 = opts := by
  have hres : resolveOptions env opts = .ok opts := by
    simp [resolveOptions, hdb]
  have ha : applyAuto env.now opts = opts := by
    simp [applyAuto, hauto]
  cases hk : get_course_keys env.courseKeyFromString opts.courses with
  | ok ks =>
      simp only [handle, hres, handleResolved, ha, hk] at henq
      by_cases hc : noFilterCondition ks opts = true
      · simp [hc] at henq
      · simp [hc] at henq
        exact henq.1.symm
  | commandError m => simp [handle, hres, handleResolved, ha, hk] at henq
  | sysExit c => simp [handle, hres, handleResolved, ha, hk] at henq

/-- Witness for C6 (amended): without `--auto` and `--args-from-database`,
the enqueued options equal the invocation's options. -/
theorem C6_verbatim_witness :
    filterOptions.args_from_database = false ∧
    filterOptions.auto = false ∧
    handle sampleEnv filterOptions = .enqueued filterOptions [] ∧
    filterOptions = filterOptions :=
  ⟨by decide, by decide, by decide,
   C6_verbatim_without_auto_or_db sampleEnv filterOptions filterOptions []
     (by decide) (by decide) (by decide)⟩

/-- C7: with `--args-from-database` set and the config enabled, the options
used are exactly the re-parse of the shlex-split persisted arguments string,
and the rest of the invocation's command-line options are discarded entirely:
any two invocations with the flag behave identically. -/
theorem C7_args_from_database_replaces_options (env : Env)
    (opts opts2 : Options)
    (hdb : opts.args_from_database = true)
    (hdb2 : opts2.args_from_database = true)
    (hen : env.config.enabled = true) :
    resolveOptions env opts =
      .ok (env.parseArgs (env.shlexSplit env.config.arguments)) ∧
    handle env opts =
      handleResolved env (env.parseArgs (env.shlexSplit env.config.arguments)) ∧
    handle env opts = handle env opts2 := by
  have hres : resolveOptions env opts =
      .ok (env.parseArgs (env.shlexSplit env.config.arguments)) := by
    simp [resolveOptions, get_args_from_database, hdb, hen]
  have hres2 : resolveOptions env opts2 =
      .ok (env.parseArgs (env.shlexSplit env.config.arguments)) := by
    simp [resolveOptions, get_args_from_database, hdb2, hen]
  refine ⟨hres, ?_, ?_⟩
  · simp [handle, hres]
  · simp [handle, hres, hres2]

/-- Sample CLI options with `--args-from-database` plus extra command-line
options that the database path must discard. -/
def dbOptions2 : Options :=
  { dbOptions with dry_run := true, start_date := some sampleNow }

/-- Witness for C7: two invocations with `--args-from-database` and different
other command-line options resolve to the shlex-reparsed database options and
behave identically. -/
theorem C7_args_from_database_witness :
    dbOptions.args_from_database = true ∧
    dbOptions2.args_from_database = true ∧
    sampleEnv.config.enabled = true ∧
    (resolveOptions sampleEnv dbOptions =
      .ok (sampleEnv.parseArgs
        (sampleEnv.shlexSplit sampleEnv.config.arguments)) ∧
     handle sampleEnv dbOptions =
      handleResolved sampleEnv (sampleEnv.parseArgs
        (sampleEnv.shlexSplit sampleEnv.config.arguments)) ∧
     handle sampleEnv dbOptions = handle sampleEnv dbOptions2) :=
  ⟨by decide, by decide, by decide,
   C7_args_from_database_replaces_options sampleEnv dbOptions dbOptions2
     (by decide) (by decide) (by decide)⟩

/-- C8: for every time string the underlying parser accepts, `parsetime`
returns a timezone-aware datetime: a naive parse result is assigned UTC (all
other fields unchanged), an aware one is returned unchanged. -/
theorem C8_parsetime_timezone_aware (parse : String → Option Datetime)
    (timestr : String) (dt : Datetime)
    (h : parse timestr = some dt) :
    parsetime parse timestr =
      some (if dt.tzinfo = none then { dt with tzinfo := some Tz.utc }
            else dt) ∧
    (if dt.tzinfo = none then ({ dt with tzinfo := some Tz.utc } : Datetime)
     else dt).tzinfo.isSome = true := by
  refine ⟨?_, ?_⟩
  · by_cases hz : dt.tzinfo = none
    · simp [parsetime, h, hz]
    · simp [parsetime, h, hz]
  · by_cases hz : dt.tzinfo = none
    · simp [hz]
    · rw [if_neg hz]
      exact Option.isSome_iff_ne_none.mpr hz

/-- Witness for C8: a parser returning a naive datetime yields a UTC-assigned
aware result. -/
theorem C8_parsetime_witness :
    (fun _ : String => some sampleNow) "2018-06-01" = some sampleNow ∧
    (parsetime (fun _ => some sampleNow) "2018-06-01" =
      some (if sampleNow.tzinfo = none
            then { sampleNow with tzinfo := some Tz.utc } else sampleNow) ∧
     (if sampleNow.tzinfo = none
      then ({ sampleNow with tzinfo := some Tz.utc } : Datetime)
      else sampleNow).tzinfo.isSome = true) :=
  ⟨rfl, C8_parsetime_timezone_aware (fun _ => some sampleNow) "2018-06-01"
    sampleNow rfl⟩

/-- C9: when every course id string parses, `get_course_keys` returns the
keys in order, one per input string (same length); for `None` or an empty
list it returns the empty list rather than expanding to all courses. -/
theorem C9_get_course_keys_order_preserving (f : String → Option CourseKey)
    (courses : List String) (ks : List CourseKey)
    (h : parseAll f courses = some ks) :
    get_course_keys f (some courses) = .ok ks ∧
    ks.length = courses.length ∧
    get_course_keys f none = .ok [] ∧
    get_course_keys f (some []) = .ok [] := by
  refine ⟨?_, parseAll_length f courses ks h, ?_, ?_⟩
  · have hloop := get_course_keys_loop_parseAll f courses [] ks h
    simpa [get_course_keys] using hloop
  · simp [get_course_keys, get_course_keys_loop]
  · simp [get_course_keys, get_course_keys_loop]

/-- Witness for C9: two parseable course ids come back as two keys in input
order. -/
theorem C9_get_course_keys_witness :
    parseAll keyOfString ["course-v1:a", "course-v1:b"] =
      some [{ raw := "course-v1:a" }, { raw := "course-v1:b" }] ∧
    get_course_keys keyOfString (some ["course-v1:a", "course-v1:b"]) =
      .ok [{ raw := "course-v1:a" }, { raw := "course-v1:b" }] :=
  ⟨by decide,
   (C9_get_course_keys_order_preserving keyOfString
     ["course-v1:a", "course-v1:b"]
     [{ raw := "course-v1:a" }, { raw := "course-v1:b" }] (by decide)).1⟩

/-- C10: with `auto` set in the resolved options, `end_date` becomes the
current time truncated to the start of its hour, `start_date` becomes exactly
`end_date` minus 4 hours — overriding any supplied dates — and the run can
never raise the no-filter `CommandError`. -/
theorem C10_auto_sets_four_hour_window (env : Env) (opts o : Options)
    (hres : resolveOptions env opts = .ok o)
    (hauto : o.auto = true) :
    (applyAuto env.now o).end_date = some (truncateToHour env.now) ∧
    (applyAuto env.now o).start_date =
      some (subHours (truncateToHour env.now) 4) ∧
    (truncateToHour env.now).minute = 0 ∧
    (truncateToHour env.now).second = 0 ∧
    (truncateToHour env.now).microsecond = 0 ∧
    handle env opts ≠ .commandError noFilterMsg := by
  have ha : applyAuto env.now o =
      { o with end_date := some (truncateToHour env.now),
               start_date := some (subHours (truncateToHour env.now) 4) } := by
    simp [applyAuto, hauto]
  refine ⟨by rw [ha], by rw [ha], rfl, rfl, rfl, ?_⟩
  cases hk : get_course_keys env.courseKeyFromString
      (applyAuto env.now o).courses with
  | ok ks =>
      have hcond : noFilterCondition ks (applyAuto env.now o) = false := by
        simp [noFilterCondition, ha]
      simp [handle, hres, handleResolved, hk, hcond]
  | commandError m =>
      exact absurd hk (by
        simpa [get_course_keys] using
          get_course_keys_loop_ne_commandError env.courseKeyFromString
            ((applyAuto env.now o).courses.getD []) [] m)
  | sysExit c =>
      simp [handle, hres, handleResolved, hk]

/-- Witness for C10: an `--auto` invocation (even with an explicit start
date) gets the truncated-hour window and is never rejected for lack of a
filter. -/
theorem C10_auto_witness :
    resolveOptions sampleEnv autoOptions = .ok autoOptions ∧
    autoOptions.auto = true ∧
    ((applyAuto sampleEnv.now autoOptions).end_date =
      some (truncateToHour sampleEnv.now) ∧
     (applyAuto sampleEnv.now autoOptions).start_date =
      some (subHours (truncateToHour sampleEnv.now) 4) ∧
     (truncateToHour sampleEnv.now).minute = 0 ∧
     (truncateToHour sampleEnv.now).second = 0 ∧
     (truncateToHour sampleEnv.now).microsecond = 0 ∧
     handle sampleEnv autoOptions ≠ .commandError noFilterMsg) :=
  ⟨by decide, by decide,
   C10_auto_sets_four_hour_window sampleEnv autoOptions autoOptions
     (by decide) (by decide)⟩

end NotifyCredentials
